import Mathlib

/-!
Verification of the multi-cloud cost-optimization core (Project2 backend):
cost normalization (`cost_normalizer.py`), opportunity analysis
(`cost_analyzer.py`), the schema-agnostic data-source registry
(`data_sources.py`) and the price-history tracker (`pricing_scraper.py`).

The Python code is shallowly embedded: Python floats are modelled as exact
rationals (ℚ), Python dicts as insertion-ordered association lists, raised
exceptions as `Except.error`, and `None`-able values as `Option`.
-/

namespace CostPortfolio

attribute [local semireducible] Rat.ofScientific Rat.mul Rat.inv Rat.add Rat.sub

/-- Model of a scalar Python value as it appears in a parsed billing row.
`pstr` is a string cell, `pnum` a numeric cell, `pdict` a nested
string-to-string mapping (used by the mock-CSV rows for `usage_metrics` /
`tags`).  Python floats are modelled as exact rationals. -/
inductive PyVal where
  | pstr (s : String)
  | pnum (q : ℚ)
  | pdict (entries : List (String × String))
deriving Repr, DecidableEq

/-- A raw input row: a Python dict, modelled as an insertion-ordered
association list from field name to value. -/
abbrev RawRecord := List (String × PyVal)

/-- Python `d.get(k)`: the first binding of `k` (dict keys are unique). -/
def rget (r : RawRecord) (k : String) : Option PyVal :=
  (r.find? (fun p => p.1 == k)).map (fun p => p.2)

/-- Python `d.get(k, default)`. -/
def rgetD (r : RawRecord) (k : String) (d : PyVal) : PyVal :=
  (rget r k).getD d

/-- Does the character pattern `pat` occur at the head of `s`? -/
def charsLead : List Char → List Char → Bool
  | [], _ => true
  | _ :: _, [] => false
  | a :: as, b :: bs => a == b && charsLead as bs

/-- Does the character pattern `pat` occur anywhere inside `s`? -/
def charsHave (pat : List Char) : List Char → Bool
  | [] => charsLead pat []
  | c :: rest => charsLead pat (c :: rest) || charsHave pat rest

/-- Python `pat in s` (substring containment). -/
def strHas (s pat : String) : Bool := charsHave pat.toList s.toList

/-- Python `s.startswith(pat)`. -/
def strLeads (s pat : String) : Bool := charsLead pat.toList s.toList

/-- Python `s.lower()` (ASCII case folding, which covers every string the
code lowercases). -/
def strLower (s : String) : String := String.mk (s.data.map Char.toLower)

/-- Split a character list at every occurrence of the separator `c`
(Python `s.split(c)` for a one-character separator). -/
def splitCharAux (c : Char) (cs : List Char) : List (List Char) :=
  cs.foldr
    (fun ch acc =>
      match acc with
      | [] => [[ch]]
      | hd :: tl => if ch == c then [] :: hd :: tl else (ch :: hd) :: tl)
    [[]]

/-- Python `s.split(c)` for a one-character separator. -/
def splitChar (c : Char) (s : String) : List String :=
  (splitCharAux c s.data).map String.mk

/-- ASCII whitespace, as stripped by Python `float(str)`. -/
def isPySpace (c : Char) : Bool :=
  c == ' ' || c == '\t' || c == '\n' || c == '\r' || c == '\x0b' || c == '\x0c'

/-- Python `s.strip()` on a character list (ASCII whitespace). -/
def pyTrim (cs : List Char) : List Char :=
  ((cs.dropWhile isPySpace).reverse.dropWhile isPySpace).reverse

/-- Decimal value of a digit list (most significant first). -/
def digitsToNat (cs : List Char) : Nat :=
  cs.foldl (fun n c => n * 10 + (c.toNat - 48)) 0

/-- Mantissa of a Python float literal: digits, optionally with one decimal
point, at least one digit overall. -/
def parseMantissa (cs : List Char) : Option ℚ :=
  let ip := cs.takeWhile Char.isDigit
  let rest := cs.dropWhile Char.isDigit
  match rest with
  | [] => if ip.isEmpty then none else some ((digitsToNat ip : ℤ) : ℚ)
  | c :: fp =>
    if c == '.' && fp.all Char.isDigit && !(ip.isEmpty && fp.isEmpty) then
      some (((digitsToNat ip : ℤ) : ℚ) + ((digitsToNat fp : ℤ) : ℚ) / (10 : ℚ) ^ fp.length)
    else none

/-- Optional sign at the head of a literal; returns (isNegative, rest). -/
def splitSign : List Char → Bool × List Char
  | '-' :: rest => (true, rest)
  | '+' :: rest => (false, rest)
  | cs => (false, cs)

/-- Exponent part of a Python float literal (after the `e`). -/
def parseExponent (cs : List Char) : Option ℤ :=
  let (neg, ds) := splitSign cs
  if ds.isEmpty || !(ds.all Char.isDigit) then none
  else some (if neg then -(digitsToNat ds : ℤ) else (digitsToNat ds : ℤ))

/-- Split a float literal at the first `e`/`E` (exponent marker). -/
def splitAtExpMark : List Char → List Char × Option (List Char)
  | [] => ([], none)
  | c :: rest =>
    if c == 'e' || c == 'E' then ([], some rest)
    else
      let (m, e) := splitAtExpMark rest
      (c :: m, e)

/-- Model of Python `float(s)` on a string: surrounding whitespace is
ignored, then an optionally signed decimal with optional exponent is
accepted; anything else raises `ValueError` (here: `none`).  The special
literals `inf` / `nan` and digit-group underscores are outside the rational
model and also map to `none`. -/
def pyParseFloat (s : String) : Option ℚ :=
  let (neg, cs) := splitSign (pyTrim s.toList)
  let (mcs, ecs) := splitAtExpMark cs
  match parseMantissa mcs with
  | none => none
  | some m =>
    let signed := if neg then -m else m
    match ecs with
    | none => some signed
    | some es =>
      match parseExponent es with
      | none => none
      | some e => some (signed * (10 : ℚ) ^ e)

/-- Model of Python `float(v)` on a raw cell: numbers pass through, strings
are parsed, anything else is a `TypeError`. -/
def pyFloatE : PyVal → Except String ℚ
  | .pnum q => .ok q
  | .pstr s =>
    match pyParseFloat s with
    | some q => .ok q
    | none => .error "ValueError: could not convert string to float"
  | .pdict _ => .error "TypeError: float() argument must be a string or a number"

/-- A raw cell used where the code applies `str` methods (`.lower()`,
`.split(...)`): non-strings raise `TypeError` there, modelled as an error. -/
def asStr : PyVal → Except String String
  | .pstr s => .ok s
  | _ => .error "TypeError: expected str"

/-- A raw cell used where the code expects a nested dict (`usage_metrics`,
`tags` of the mock-CSV rows). -/
def asStrMap : PyVal → Except String (List (String × String))
  | .pdict d => .ok d
  | _ => .error "TypeError: expected dict"

/-- Python `str(v)` for cells that are stored without any string operation
applied.  Rendering of non-string scalars is simplified (no claim depends
on the exact text of a coerced number). -/
def pyStrOf : PyVal → String
  | .pstr s => s
  | .pnum q => toString q
  | .pdict _ => "dict"

/-- The unified cost record of `cost_normalizer.py` (`UnifiedCostRecord`).
`usage_metrics` and `tags` are open string-keyed mappings. -/
structure UnifiedCostRecord where
  resource_id : String
  cloud_provider : String
  service_category : String
  resource_type : String
  cost_usd : ℚ
  usage_metrics : List (String × String)
  region : String
  tags : List (String × String)
  date : String
  optimization_potential : ℚ
deriving Repr, DecidableEq

/-- Python `m.get(k, default)` on a string-to-string mapping. -/
def mgetD (m : List (String × String)) (k d : String) : String :=
  ((m.find? (fun p => p.1 == k)).map (fun p => p.2)).getD d

/-- `CostNormalizer._categorize_service`: keyword-match the service name
into a common category. -/
def categorize_service (service : String) (_provider : String) : String :=
  let s := strLower service
  if ["ec2", "compute", "vm", "instance", "virtual machine"].any (fun x => strHas s x) then
    "compute"
  else if ["s3", "storage", "blob", "bucket"].any (fun x => strHas s x) then
    "storage"
  else if ["rds", "database", "sql", "dynamodb", "cosmos"].any (fun x => strHas s x) then
    "database"
  else if ["vpc", "network", "load balancer", "nat", "gateway"].any (fun x => strHas s x) then
    "network"
  else
    "other"

/-- `CostNormalizer._determine_resource_type`: keyword-match service and
usage type into a resource type. -/
def determine_resource_type (service usage_type : String) (_provider : String) : String :=
  let combined := strLower (service ++ " " ++ usage_type)
  if ["ec2", "compute engine", "virtual machine"].any (fun x => strHas combined x) then
    "vm"
  else if ["s3", "storage", "blob"].any (fun x => strHas combined x) then
    "storage"
  else if ["rds", "sql", "database"].any (fun x => strHas combined x) then
    "database"
  else if ["lambda", "function", "cloud function"].any (fun x => strHas combined x) then
    "function"
  else
    "other"

/-- `CostNormalizer.normalize_aws`.  The nested matches follow the source
line order, so the exception raised first in Python is the error produced
here.  Note the region computation: `region.split('-')[0] if region else ''`
keeps only the segment before the FIRST hyphen of the availability zone. -/
def normalize_aws (aws_record : RawRecord) : Except String UnifiedCostRecord :=
  match pyFloatE (rgetD aws_record "lineItem/UnblendedCost" (.pnum 0)) with
  | .error e => .error e
  | .ok cost =>
    match asStr (rgetD aws_record "lineItem/ProductCode" (.pstr "")) with
    | .error e => .error e
    | .ok service =>
      match asStr (rgetD aws_record "lineItem/AvailabilityZone" (.pstr "")) with
      | .error e => .error e
      | .ok region =>
        let resource_id := pyStrOf (rgetD aws_record "lineItem/ResourceId" (.pstr ""))
        let usage_type := pyStrOf (rgetD aws_record "lineItem/UsageType" (.pstr ""))
        let date := pyStrOf (rgetD aws_record "lineItem/UsageStartDate" (.pstr ""))
        let tags :=
          (aws_record.filter (fun p => strLeads p.1 "resourceTags/")).map
            (fun p => (p.1.replace "resourceTags/" "", pyStrOf p.2))
        .ok
          { resource_id := resource_id
            cloud_provider := "aws"
            service_category := categorize_service service "aws"
            resource_type := determine_resource_type service usage_type "aws"
            cost_usd := cost
            usage_metrics :=
              [("usage_type", usage_type),
               ("operation", pyStrOf (rgetD aws_record "lineItem/Operation" (.pstr ""))),
               ("instance_type", pyStrOf (rgetD aws_record "product/InstanceType" (.pstr "")))]
            region := if region != "" then ((splitChar '-' region).headD "") else ""
            tags := tags
            date := date
            optimization_potential := 0 }

/-- `CostNormalizer.normalize_gcp`. -/
def normalize_gcp (gcp_record : RawRecord) : Except String UnifiedCostRecord :=
  match pyFloatE (rgetD gcp_record "cost" (.pnum 0)) with
  | .error e => .error e
  | .ok cost =>
    match asStr (rgetD gcp_record "service.description" (.pstr "")) with
    | .error e => .error e
    | .ok service =>
      let resource_id := pyStrOf (rgetD gcp_record "resource.name" (.pstr ""))
      let region := pyStrOf (rgetD gcp_record "location.region" (.pstr ""))
      let date := pyStrOf (rgetD gcp_record "usage_start_time" (.pstr ""))
      let sku := pyStrOf (rgetD gcp_record "sku.description" (.pstr ""))
      let project := pyStrOf (rgetD gcp_record "project.id" (.pstr ""))
      .ok
        { resource_id := resource_id
          cloud_provider := "gcp"
          service_category := categorize_service service "gcp"
          resource_type := determine_resource_type service sku "gcp"
          cost_usd := cost
          usage_metrics := [("sku", sku), ("project", project)]
          region := region
          tags := [("project", project)]
          date := date
          optimization_potential := 0 }

/-- `CostNormalizer.normalize_azure`. -/
def normalize_azure (azure_record : RawRecord) : Except String UnifiedCostRecord :=
  match pyFloatE (rgetD azure_record "Cost" (.pnum 0)) with
  | .error e => .error e
  | .ok cost =>
    match asStr (rgetD azure_record "ServiceName" (.pstr "")) with
    | .error e => .error e
    | .ok service =>
      let resource_id := pyStrOf (rgetD azure_record "ResourceId" (.pstr ""))
      let region := pyStrOf (rgetD azure_record "ResourceLocation" (.pstr ""))
      let date := pyStrOf (rgetD azure_record "Date" (.pstr ""))
      let meter := pyStrOf (rgetD azure_record "MeterCategory" (.pstr ""))
      .ok
        { resource_id := resource_id
          cloud_provider := "azure"
          service_category := categorize_service service "azure"
          resource_type := determine_resource_type service meter "azure"
          cost_usd := cost
          usage_metrics :=
            [("meter_category", meter),
             ("resource_group", pyStrOf (rgetD azure_record "ResourceGroup" (.pstr "")))]
          region := region
          tags := [("subscription", pyStrOf (rgetD azure_record "SubscriptionId" (.pstr "")))]
          date := date
          optimization_potential := 0 }

/-- `CostNormalizer.normalize_csv` (generic rows for any other provider).
The cost cell is evaluated before the nested dict cells, matching the
left-to-right evaluation of the dict literal in the source. -/
def normalize_csv (csv_record : RawRecord) (cloud_provider : String) :
    Except String UnifiedCostRecord :=
  match pyFloatE (rgetD csv_record "cost_usd" (.pnum 0)) with
  | .error e => .error e
  | .ok cost =>
    match asStrMap (rgetD csv_record "usage_metrics" (.pdict [])) with
    | .error e => .error e
    | .ok usage_metrics =>
      match asStrMap (rgetD csv_record "tags" (.pdict [])) with
      | .error e => .error e
      | .ok tags =>
        .ok
          { resource_id := pyStrOf (rgetD csv_record "resource_id" (.pstr ""))
            cloud_provider := cloud_provider
            service_category := pyStrOf (rgetD csv_record "service_category" (.pstr ""))
            resource_type := pyStrOf (rgetD csv_record "resource_type" (.pstr ""))
            cost_usd := cost
            usage_metrics := usage_metrics
            region := pyStrOf (rgetD csv_record "region" (.pstr ""))
            tags := tags
            date := pyStrOf (rgetD csv_record "date" (.pstr ""))
            optimization_potential := 0 }

/-- One row of `CostNormalizer.normalize_batch`: the provider dispatch. -/
def normalizeOne (provider : String) (row : RawRecord) : Except String UnifiedCostRecord :=
  if provider == "aws" then normalize_aws row
  else if provider == "gcp" then normalize_gcp row
  else if provider == "azure" then normalize_azure row
  else normalize_csv row provider

/-- `CostNormalizer.normalize_batch`: rows that raise are logged and
skipped, the batch continues. -/
def normalize_batch (records : List RawRecord) (provider : String) : List UnifiedCostRecord :=
  records.filterMap (fun r => (normalizeOne provider r).toOption)

/-- The raw field each provider mapping parses into `cost_usd`. -/
def costKey (provider : String) : String :=
  if provider == "aws" then "lineItem/UnblendedCost"
  else if provider == "gcp" then "cost"
  else if provider == "azure" then "Cost"
  else "cost_usd"

/-- The raw cost cell of a row, for the given provider mapping. -/
def rawCost (provider : String) (row : RawRecord) : Option PyVal :=
  rget row (costKey provider)

/-! Cost analyzer (`cost_analyzer.py`). -/

/-- One optimization opportunity, as built by the analyzer heuristics.
Python dict key `type` is field `otype` (`type` is reserved in Lean);
the two optional keys model dict entries only some heuristics add. -/
structure Opportunity where
  otype : String
  resource_id : String
  cloud_provider : String
  current_cost : ℚ
  potential_savings : ℚ
  recommendation : String
  priority : String
  price_reduction_pct : Option ℚ
  action_required : Option String
deriving Repr, DecidableEq

/-- Keys of a list in first-occurrence order (Python dict key order when a
`defaultdict` is filled by one pass over the data). -/
def dedupFirst (l : List String) : List String :=
  l.foldl (fun acc k => if acc.contains k then acc else acc ++ [k]) []

/-- Group a list by a string key, preserving first-occurrence key order and
per-key element order — the behavior of filling a `defaultdict(list)`. -/
def groupByKey (key : α → String) (l : List α) : List (String × List α) :=
  (dedupFirst (l.map key)).map (fun k => (k, l.filter (fun r => key r == k)))

/-- Sum of the costs of a record batch. -/
def sumCost (rs : List UnifiedCostRecord) : ℚ :=
  (rs.map (fun r => r.cost_usd)).sum

/-- Sum of the potential savings of an opportunity list. -/
def sumSavings (l : List Opportunity) : ℚ :=
  (l.map (fun o => o.potential_savings)).sum

/-- Provider of the first record of a (by construction non-empty) group. -/
def headProvider (rs : List UnifiedCostRecord) : String :=
  match rs with
  | [] => ""
  | r :: _ => r.cloud_provider

/-- `CostAnalyzer._find_idle_resources`: group by truthy `resource_id`;
flag groups with no cpu/utilization usage metric and cost above 10. -/
def find_idle_resources (records : List UnifiedCostRecord) : List Opportunity :=
  let with_id := records.filter (fun r => r.resource_id != "")
  (groupByKey (fun r => r.resource_id) with_id).filterMap (fun g =>
    let total_cost := sumCost g.2
    let has_usage := g.2.any (fun r =>
      !r.usage_metrics.isEmpty &&
      r.usage_metrics.any (fun kv =>
        strHas (strLower kv.2) "cpu" || strHas (strLower kv.2) "utilization"))
    if !has_usage && total_cost > 10 then
      some
        { otype := "idle_resource"
          resource_id := g.1
          cloud_provider := headProvider g.2
          current_cost := total_cost
          potential_savings := total_cost * 0.9
          recommendation := "Review resource usage. Consider terminating if unused."
          priority := if total_cost > 100 then "high" else "medium"
          price_reduction_pct := none
          action_required := none }
    else none)

/-- `CostAnalyzer._find_over_provisioned`: vm records above 50 whose
`instance_type` metric carries a large size marker. -/
def find_over_provisioned (records : List UnifiedCostRecord) : List Opportunity :=
  records.filterMap (fun r =>
    if r.resource_type == "vm" && r.cost_usd > 50 then
      let instance_type := mgetD r.usage_metrics "instance_type" ""
      if ["xlarge", "2xlarge", "4xlarge", "8xlarge"].any
          (fun size => strHas (strLower instance_type) size) then
        some
          { otype := "over_provisioned"
            resource_id := r.resource_id
            cloud_provider := r.cloud_provider
            current_cost := r.cost_usd
            potential_savings := r.cost_usd * 0.3
            recommendation :=
              "Consider downsizing " ++ instance_type ++ " to smaller instance type"
            priority := "medium"
            price_reduction_pct := none
            action_required := none }
      else none
    else none)

/-- `CostAnalyzer._find_unattached_storage`: storage records above 5 with
no tags and no attached marker in the id are flagged at full cost. -/
def find_unattached_storage (records : List UnifiedCostRecord) : List Opportunity :=
  records.filterMap (fun r =>
    if r.resource_type == "storage" && r.cost_usd > 5 then
      let is_attached := !r.tags.isEmpty || strHas (strLower r.resource_id) "attached"
      if !is_attached then
        some
          { otype := "unattached_storage"
            resource_id := r.resource_id
            cloud_provider := r.cloud_provider
            current_cost := r.cost_usd
            potential_savings := r.cost_usd
            recommendation := "Delete unattached storage volume"
            priority := "medium"
            price_reduction_pct := none
            action_required := none }
      else none
    else none)

/-- `CostAnalyzer._find_reserved_instance_opportunities`: vm records grouped
by provider:instance_type:region, flagged on sustained usage. -/
def find_reserved_instance_opportunities (records : List UnifiedCostRecord) :
    List Opportunity :=
  let vms := records.filter (fun r => r.resource_type == "vm")
  (groupByKey
      (fun r =>
        r.cloud_provider ++ ":" ++ mgetD r.usage_metrics "instance_type" "" ++ ":" ++ r.region)
      vms).filterMap (fun g =>
    let total_cost := sumCost g.2
    if total_cost > 100 && g.2.length > 20 then
      some
        { otype := "reserved_instance"
          resource_id := g.1
          cloud_provider := headProvider g.2
          current_cost := total_cost
          potential_savings := total_cost * 0.4
          recommendation := "Consider purchasing reserved instances for consistent workloads"
          priority := if total_cost > 500 then "high" else "medium"
          price_reduction_pct := none
          action_required := none }
    else none)

/-- First pair with maximal value, as Python `max(items, key=...)`. -/
def maxByVal (hd : String × ℚ) (tl : List (String × ℚ)) : String × ℚ :=
  tl.foldl (fun acc p => if p.2 > acc.2 then p else acc) hd

/-- First pair with minimal value, as Python `min(items, key=...)`. -/
def minByVal (hd : String × ℚ) (tl : List (String × ℚ)) : String × ℚ :=
  tl.foldl (fun acc p => if p.2 < acc.2 then p else acc) hd

/-- `CostAnalyzer._find_region_optimizations`: per service/resource-type
group, compare per-region cost totals. -/
def find_region_optimizations (records : List UnifiedCostRecord) : List Opportunity :=
  (groupByKey (fun r => r.service_category ++ ":" ++ r.resource_type) records).filterMap
    (fun g =>
      let regions := groupByKey (fun r => r.region) g.2
      if regions.length < 2 then none
      else
        let region_costs := regions.map (fun rg => (rg.1, sumCost rg.2))
        match region_costs with
        | [] => none
        | hd :: tl =>
          let maxr := maxByVal hd tl
          let minr := minByVal hd tl
          if maxr.2 > minr.2 * 1.2 then
            some
              { otype := "region_optimization"
                resource_id := g.1
                cloud_provider := "multi"
                current_cost := maxr.2
                potential_savings := (maxr.2 - minr.2) * 0.8
                recommendation := "Consider migrating from " ++ maxr.1 ++ " to " ++ minr.1
                priority := "low"
                price_reduction_pct := none
                action_required := none }
          else none)

/-- The static table of known price reductions in
`_find_price_change_opportunities` (key, reduction percent, discount text). -/
def price_reductions : List (String × ℚ × String) :=
  [("aws:m5.xlarge", (15, "Savings Plans available")),
   ("aws:t3.large", (10, "Spot instances 60% cheaper")),
   ("gcp:n1-standard-4", (20, "Committed Use Discounts")),
   ("azure:Standard_D4s_v3", (12, "Reserved Instances 40% off"))]

/-- Lookup in `price_reductions` by exact key (Python `key in dict`). -/
def findReduction (k : String) : Option (ℚ × String) :=
  ((price_reductions.find? (fun p => p.1 == k)).map (fun p => p.2))

/-- Python `key.split(':', 1)`: the part before the first colon and the
rest. -/
def splitFirstColon (s : String) : String × String :=
  match splitChar ':' s with
  | [] => ("", "")
  | x :: rest => (x, String.intercalate ":" rest)

/-- `CostAnalyzer._find_price_change_opportunities`: static price-reduction
table matches plus spot-instance candidates. -/
def find_price_change_opportunities (records : List UnifiedCostRecord) : List Opportunity :=
  let vms_with_type := records.filter (fun r =>
    r.resource_type == "vm" && mgetD r.usage_metrics "instance_type" "" != "")
  let table_opps :=
    (groupByKey
        (fun r => r.cloud_provider ++ ":" ++ mgetD r.usage_metrics "instance_type" "")
        vms_with_type).filterMap (fun g =>
      match findReduction (strLower g.1) with
      | none => none
      | some info =>
        let total_cost := sumCost g.2
        let reduction_pct := info.1 / 100
        let potential_savings := total_cost * reduction_pct
        if potential_savings > 50 then
          let pi := splitFirstColon g.1
          some
            { otype := "price_change_opportunity"
              resource_id := pi.1 ++ ":" ++ pi.2
              cloud_provider := pi.1
              current_cost := total_cost
              potential_savings := potential_savings
              recommendation :=
                "Take advantage of " ++ info.2 ++ ". Price reduced by " ++
                  toString info.1 ++ "%"
              priority := if potential_savings > 200 then "high" else "medium"
              price_reduction_pct := some info.1
              action_required :=
                some "Switch to discounted pricing or enroll in discount program" }
        else none)
  let spot_opps := records.filterMap (fun r =>
    if r.resource_type == "vm" && r.cost_usd > 100 then
      let instance_type := mgetD r.usage_metrics "instance_type" ""
      if !strHas (strLower r.resource_id) "spot" && !strHas (strLower instance_type) "spot" then
        let spot_savings := r.cost_usd * 0.7
        if spot_savings > 50 then
          some
            { otype := "spot_instance_opportunity"
              resource_id := r.resource_id
              cloud_provider := r.cloud_provider
              current_cost := r.cost_usd
              potential_savings := spot_savings
              recommendation :=
                "Consider switching to spot instances for fault-tolerant workloads. Save up to 70%"
              priority := "medium"
              price_reduction_pct := some 70
              action_required :=
                some "Evaluate workload fault tolerance and migrate to spot instances" }
        else none
      else none
    else none)
  table_opps ++ spot_opps

/-- Concatenation of the six heuristics, in the order `analyze_costs`
collects them (before sorting and truncation). -/
def all_opportunities (records : List UnifiedCostRecord) : List Opportunity :=
  find_idle_resources records ++ find_over_provisioned records ++
    find_unattached_storage records ++ find_reserved_instance_opportunities records ++
    find_region_optimizations records ++ find_price_change_opportunities records

/-- The summary block of a non-empty analysis result. -/
structure AnalysisSummary where
  by_provider : List (String × ℚ)
  by_category : List (String × ℚ)
  total_resources : Nat
deriving Repr, DecidableEq

/-- Result dict of `CostAnalyzer.analyze_costs`.  The early return for an
empty batch carries only `total_cost`, `opportunities` and an empty
`summary`: there `none` models the absent `total_potential_savings` and
`savings_percentage` keys, and the empty `summary` dict. -/
structure AnalysisResult where
  total_cost : ℚ
  total_potential_savings : Option ℚ
  savings_percentage : Option ℚ
  opportunities : List Opportunity
  summary : Option AnalysisSummary
deriving Repr, DecidableEq

/-- `CostAnalyzer._summarize_by_category` (defaultdict(float) accumulation:
category totals in first-occurrence order). -/
def summarize_by_category (records : List UnifiedCostRecord) : List (String × ℚ) :=
  (groupByKey (fun r => r.service_category) records).map (fun g => (g.1, sumCost g.2))

/-- Stable descending insertion: the element goes before the first
already-placed element whose savings do not exceed its own, so an
earlier-emitted opportunity stays first on ties. -/
def insertDesc (o : Opportunity) : List Opportunity → List Opportunity
  | [] => [o]
  | y :: ys =>
    if y.potential_savings ≤ o.potential_savings then o :: y :: ys
    else y :: insertDesc o ys

/-- Python `opportunities.sort(key=..., reverse=True)`: the stable
descending sort by `potential_savings` (ties keep emission order).  A
stable sort is extensionally unique, so this structural insertion sort is
exactly the list the Python stable sort produces. -/
def sortBySavings : List Opportunity → List Opportunity
  | [] => []
  | x :: xs => insertDesc x (sortBySavings xs)

/-- `CostAnalyzer.analyze_costs`.  Note: `total_potential_savings` sums over
ALL collected opportunities; the `opportunities` field is then truncated to
the top 20. -/
def analyze_costs (records : List UnifiedCostRecord) : AnalysisResult :=
  if records.isEmpty then
    { total_cost := 0
      total_potential_savings := none
      savings_percentage := none
      opportunities := []
      summary := none }
  else
    let total_cost := sumCost records
    let by_provider := groupByKey (fun r => r.cloud_provider) records
    let opportunities := sortBySavings (all_opportunities records)
    let total_potential_savings := sumSavings opportunities
    { total_cost := total_cost
      total_potential_savings := some total_potential_savings
      savings_percentage :=
        some (if total_cost > 0 then total_potential_savings / total_cost * 100 else 0)
      opportunities := opportunities.take 20
      summary :=
        some
          { by_provider := by_provider.map (fun g => (g.1, sumCost g.2))
            by_category := summarize_by_category records
            total_resources := records.length } }

/-! Schema-agnostic data access layer (`data_sources.py`). -/

/-- Sort request inside a query (`query_params['sort']`): a column (`None`
modelled as `none`) and an ascending flag (default `True`). -/
structure SortSpec where
  column : Option String
  ascending : Bool
deriving Repr, DecidableEq

/-- Query parameters (`query_params`): every key is optional, `none` models
a key absent from the dict. -/
structure QueryParams where
  filter : Option (List (String × PyVal))
  date_from : Option String
  date_to : Option String
  date_column : Option String
  sort : Option SortSpec
  limit : Option Int
  deriving Repr

/-- The shared guard `'limit' in query_params and query_params['limit'] > 10000`. -/
def limit_exceeds (qp : QueryParams) : Bool :=
  match qp.limit with
  | some l => l > 10000
  | none => false

/-- The single-quote character, used by the Python `str` rendering below. -/
def sq : Char := Char.ofNat 39

/-- Wrap a string in single quotes (Python `repr` of a simple string; quote
escaping for strings that themselves contain quotes is not modelled). -/
def pyQuoted (s : String) : String :=
  String.singleton sq ++ s ++ String.singleton sq

/-- Python `repr` of a scalar cell, as it appears inside `str(dict)`. -/
def pyReprVal : PyVal → String
  | .pstr s => pyQuoted s
  | .pnum q => toString q
  | .pdict _ => "dict"

/-- Python `str(query_params['filter'])`: the textual form of the filter
dict that `MongoDBDataSource.validate_query` scans for dangerous operators. -/
def pyDictStr (f : List (String × PyVal)) : String :=
  "\x7b" ++
    String.intercalate ", " (f.map (fun p => pyQuoted p.1 ++ ": " ++ pyReprVal p.2)) ++
    "\x7d"

/-- The dangerous-operator scan of `MongoDBDataSource.validate_query`. -/
def dangerous_ops_in (s : String) : Bool :=
  ["$where", "$eval", "$function"].any (fun op => strHas s op)

/-- In-memory model of a loaded pandas DataFrame: its column inventory and
its rows (one association list per row). -/
structure DataFrame where
  columns : List String
  rows : List RawRecord
deriving Repr

/-- Comparison between two cells, used by the date-range filter: strings
compare lexicographically, numbers numerically; a mixed-type comparison
(which raises in pandas) is modelled as a non-match. -/
def pvLe : PyVal → PyVal → Bool
  | .pstr a, .pstr b => a ≤ b
  | .pnum a, .pnum b => a ≤ b
  | _, _ => false

/-- Python slicing semantics of `df.head(limit)` / `list[:limit]` for an
`int` limit (a negative limit drops that many elements from the end). -/
def takePy (n : Int) (l : List α) : List α :=
  if n < 0 then l.take (l.length - n.natAbs) else l.take n.toNat

/-- Equality filters applied in dict order (`for key, value in filter`):
keys not among the columns are ignored. -/
def applyEqFilters (columns : List String) (f : List (String × PyVal))
    (rows : List RawRecord) : List RawRecord :=
  f.foldl
    (fun rs kv =>
      if columns.contains kv.1 then rs.filter (fun row => rget row kv.1 == some kv.2) else rs)
    rows

/-- The date-range filter of `CSVDataSource.query` (both bounds required,
column configurable with default `date`). -/
def applyDateRange (columns : List String) (dcol : String) (dfrom dto : String)
    (rows : List RawRecord) : List RawRecord :=
  if columns.contains dcol then
    rows.filter (fun row =>
      pvLe (.pstr dfrom) (rgetD row dcol (.pstr "")) &&
        pvLe (rgetD row dcol (.pstr "")) (.pstr dto))
  else rows

/-- The single-column sort of `CSVDataSource.query` (`sort_col` must be
truthy and a known column; modelled as a stable sort). -/
def applySort (columns : List String) (s : SortSpec) (rows : List RawRecord) :
    List RawRecord :=
  match s.column with
  | some c =>
    if c != "" && columns.contains c then
      rows.mergeSort (fun r1 r2 =>
        if s.ascending then pvLe (rgetD r1 c (.pstr "")) (rgetD r2 c (.pstr ""))
        else pvLe (rgetD r2 c (.pstr "")) (rgetD r1 c (.pstr "")))
    else rows
  | none => rows

/-- `CSVDataSource.validate_query`. -/
def csv_validate (qp : QueryParams) : Bool := !limit_exceeds qp

/-- `CSVDataSource.query`: validation guard, then equality filters, date
range, sort, and the result-size limit (default 100). -/
def csv_query (df : DataFrame) (qp : QueryParams) : Except String (List RawRecord) :=
  if csv_validate qp = false then .error "Query validation failed"
  else
    let r1 := match qp.filter with
      | some f => applyEqFilters df.columns f df.rows
      | none => df.rows
    let r2 := match qp.date_from, qp.date_to with
      | some dfrom, some dto => applyDateRange df.columns (qp.date_column.getD "date") dfrom dto r1
      | _, _ => r1
    let r3 := match qp.sort with
      | some s => applySort df.columns s r2
      | none => r2
    .ok (takePy (qp.limit.getD 100) r3)

/-- `AWSDataSource.validate_query`. -/
def aws_validate (qp : QueryParams) : Bool := !limit_exceeds qp

/-- `AWSDataSource.query`: filters, fixed date column
`lineItem/UsageStartDate`, no sort, then limit. -/
def aws_query (df : DataFrame) (qp : QueryParams) : Except String (List RawRecord) :=
  if aws_validate qp = false then .error "Query validation failed"
  else
    let r1 := match qp.filter with
      | some f => applyEqFilters df.columns f df.rows
      | none => df.rows
    let r2 := match qp.date_from, qp.date_to with
      | some dfrom, some dto => applyDateRange df.columns "lineItem/UsageStartDate" dfrom dto r1
      | _, _ => r1
    .ok (takePy (qp.limit.getD 100) r2)

/-- `GCPDataSource.validate_query`. -/
def gcp_validate (qp : QueryParams) : Bool := !limit_exceeds qp

/-- `GCPDataSource.query`: equality filters then limit. -/
def gcp_query (df : DataFrame) (qp : QueryParams) : Except String (List RawRecord) :=
  if gcp_validate qp = false then .error "Query validation failed"
  else
    let r1 := match qp.filter with
      | some f => applyEqFilters df.columns f df.rows
      | none => df.rows
    .ok (takePy (qp.limit.getD 100) r1)

/-- `AzureDataSource.validate_query`. -/
def azure_validate (qp : QueryParams) : Bool := !limit_exceeds qp

/-- `AzureDataSource.query`: equality filters then limit. -/
def azure_query (df : DataFrame) (qp : QueryParams) : Except String (List RawRecord) :=
  if azure_validate qp = false then .error "Query validation failed"
  else
    let r1 := match qp.filter with
      | some f => applyEqFilters df.columns f df.rows
      | none => df.rows
    .ok (takePy (qp.limit.getD 100) r1)

/-- `MongoDBDataSource.validate_query`: dangerous-operator scan on the
textual filter, then the limit ceiling. -/
def mongo_validate (qp : QueryParams) : Bool :=
  if (match qp.filter with
      | some f => dangerous_ops_in (pyDictStr f)
      | none => false) then false
  else !limit_exceeds qp

/-- `MongoDBDataSource.query` over an in-memory collection.  The pymongo
`find`/`sort`/`limit` calls are external to the repository; their behavior
is modelled from the spec (section 4.1): equality filters, then a stable
single-column sort, then the result-size limit (default 100).  The final
ObjectId-to-string rewrite of the `_id` field concerns a driver type with
no counterpart in this model and is omitted. -/
def mongo_query (collection : List RawRecord) (qp : QueryParams) :
    Except String (List RawRecord) :=
  if mongo_validate qp = false then .error "Query validation failed: Unsafe operation detected"
  else
    let found := collection.filter (fun row =>
      (qp.filter.getD []).all (fun kv => rget row kv.1 == some kv.2))
    let sorted := match qp.sort with
      | some s =>
        match s.column with
        | some c =>
          found.mergeSort (fun r1 r2 =>
            if s.ascending then pvLe (rgetD r1 c (.pstr "")) (rgetD r2 c (.pstr ""))
            else pvLe (rgetD r2 c (.pstr "")) (rgetD r1 c (.pstr "")))
        | none => found
      | none => found
    .ok (takePy (qp.limit.getD 100) sorted)

/-- `RESTAPIDataSource.validate_query`: dangerous endpoint patterns, then
the limit ceiling. -/
def rest_validate (endpoint : String) (qp : QueryParams) : Bool :=
  if ["delete", "drop", "remove", "admin"].any (fun pat => strHas (strLower endpoint) pat) then
    false
  else !limit_exceeds qp

/-- `RESTAPIDataSource.query`.  The HTTP transport (httpx, external to the
repository) is modelled from the spec as the already-parsed list of row
objects the endpoint returns; the code then slices it to the limit. -/
def rest_query (response : List RawRecord) (endpoint : String) (qp : QueryParams) :
    Except String (List RawRecord) :=
  if rest_validate endpoint qp = false then .error "Query validation failed"
  else .ok (takePy (qp.limit.getD 100) response)

/-- The `DataSource` interface: the two operations the registry uses (the
schema descriptor is used only for logging/listing and is not modelled). -/
structure DataSource where
  validate_query : QueryParams → Bool
  query : QueryParams → Except String (List RawRecord)

/-- A `CSVDataSource` instance over its loaded frame. -/
def mkCSVSource (df : DataFrame) : DataSource :=
  { validate_query := csv_validate, query := csv_query df }

/-- An `AWSDataSource` instance over its loaded frame. -/
def mkAWSSource (df : DataFrame) : DataSource :=
  { validate_query := aws_validate, query := aws_query df }

/-- A `GCPDataSource` instance over its loaded frame. -/
def mkGCPSource (df : DataFrame) : DataSource :=
  { validate_query := gcp_validate, query := gcp_query df }

/-- An `AzureDataSource` instance over its loaded frame. -/
def mkAzureSource (df : DataFrame) : DataSource :=
  { validate_query := azure_validate, query := azure_query df }

/-- A `MongoDBDataSource` instance over its connected collection. -/
def mkMongoSource (collection : List RawRecord) : DataSource :=
  { validate_query := mongo_validate, query := mongo_query collection }

/-- A `RESTAPIDataSource` instance over its endpoint and its response. -/
def mkRESTSource (endpoint : String) (response : List RawRecord) : DataSource :=
  { validate_query := rest_validate endpoint, query := rest_query response endpoint }

/-- Python dict assignment `d[k] = v`: replace the binding in place if the
key exists, otherwise append (insertion order preserved). -/
def upsert : List (String × α) → String → α → List (String × α)
  | [], k, v => [(k, v)]
  | p :: rest, k, v => if p.1 == k then (k, v) :: rest else p :: upsert rest k v

/-- `DataSourceRegistry`: the owned name-to-source mapping. -/
structure DataSourceRegistry where
  sources : List (String × DataSource)

/-- The empty registry (`DataSourceRegistry.__init__`). -/
def emptyRegistry : DataSourceRegistry := { sources := [] }

/-- `DataSourceRegistry.register`. -/
def register (reg : DataSourceRegistry) (name : String) (source : DataSource) :
    DataSourceRegistry :=
  { sources := upsert reg.sources name source }

/-- `DataSourceRegistry.get_source`: `self.sources.get(name)`. -/
def get_source (reg : DataSourceRegistry) (name : String) : Option DataSource :=
  ((reg.sources.find? (fun p => p.1 == name)).map (fun p => p.2))

/-- `DataSourceRegistry.query_source`: a missing name is a raised
`ValueError` (NotFound), never an empty result. -/
def query_source (reg : DataSourceRegistry) (source_name : String) (qp : QueryParams) :
    Except String (List RawRecord) :=
  match get_source reg source_name with
  | none => .error ("Data source " ++ pyQuoted source_name ++ " not found")
  | some source => source.query qp

/-- `DataSourceRegistry.query_all_sources`: one entry per registered name;
a per-source failure is caught and contributes an empty list. -/
def query_all_sources (reg : DataSourceRegistry) (qp : QueryParams) :
    List (String × List RawRecord) :=
  reg.sources.map (fun p =>
    (p.1,
      match query_source reg p.1 qp with
      | .ok rows => rows
      | .error _ => []))

/-! Price scraper and change detector (`pricing_scraper.py`).  The
persisted JSON history file is carried as explicit state; wall-clock
timestamps are passed in as a parameter. -/

/-- One entry of the `simulated_reductions` override mapping. -/
structure SimReduction where
  old_price : ℚ
  new_price : ℚ
  reduction_pct : ℚ
deriving Repr, DecidableEq

/-- The persisted price-history JSON blob.  The three key families of the
flat Python dict (`<provider>_prices`, `<provider>_prices_last_updated`,
`simulated_reductions`) can never collide, so they are modelled as three
components. -/
structure PriceHistory where
  provider_prices : List (String × List (String × ℚ))
  last_updated : List (String × String)
  simulated_reductions : List (String × SimReduction)
deriving Repr, DecidableEq

/-- A fresh (or unreadable) history file: the empty dict. -/
def emptyHistory : PriceHistory :=
  { provider_prices := [], last_updated := [], simulated_reductions := [] }

/-- Current prices as returned by `scrape_all_providers`:
provider to (instance type to hourly price). -/
abbrev CurrentPrices := List (String × List (String × ℚ))

/-- Lookup in a string-keyed price map (Python `d.get(k)`). -/
def qget (m : List (String × ℚ)) (k : String) : Option ℚ :=
  ((m.find? (fun p => p.1 == k)).map (fun p => p.2))

/-- Lookup of a provider price map inside the history
(`self.historical_prices.get(f"⟨provider⟩_prices", ⟨⟩)`). -/
def historyPrices (h : PriceHistory) (provider : String) : List (String × ℚ) :=
  (((h.provider_prices.find? (fun p => p.1 == provider ++ "_prices")).map
    (fun p => p.2)).getD [])

/-- The built-in AWS EC2 reference prices of `scrape_aws_pricing`. -/
def aws_ec2_prices : List (String × ℚ) :=
  [("m5.xlarge", 0.192), ("m5.2xlarge", 0.384), ("t3.large", 0.0832),
   ("t3.xlarge", 0.1664), ("c5.4xlarge", 0.68), ("m5.large", 0.096),
   ("t3.medium", 0.0416)]

/-- The default instance-type list of `scrape_aws_pricing`. -/
def aws_default_types : List String :=
  ["m5.xlarge", "m5.2xlarge", "t3.large", "t3.xlarge", "c5.4xlarge"]

/-- `PricingScraper.scrape_aws_pricing` (default instance-type list):
simulated reductions override the reference table; unknown types get the
0.10 estimate. -/
def scrape_aws_pricing (h : PriceHistory) : List (String × ℚ) :=
  aws_default_types.map (fun instance_type =>
    (instance_type,
      match (h.simulated_reductions.find? (fun p => p.1 == "aws:" ++ instance_type)).map
          (fun p => p.2) with
      | some sr => sr.new_price
      | none =>
        match qget aws_ec2_prices instance_type with
        | some p => p
        | none => 0.10))

/-- The built-in GCP reference prices of `scrape_gcp_pricing`. -/
def gcp_prices : List (String × ℚ) :=
  [("n1-standard-4", 0.19), ("n1-standard-8", 0.38), ("n1-highmem-4", 0.236),
   ("n1-standard-2", 0.095), ("e2-standard-4", 0.134)]

/-- `PricingScraper.scrape_gcp_pricing` (default instance-type list);
unlike AWS it does not consult simulated reductions. -/
def scrape_gcp_pricing : List (String × ℚ) :=
  ["n1-standard-4", "n1-standard-8", "n1-highmem-4"].map (fun instance_type =>
    (instance_type, (qget gcp_prices instance_type).getD 0.15))

/-- The built-in Azure reference prices of `scrape_azure_pricing`. -/
def azure_prices : List (String × ℚ) :=
  [("Standard_D4s_v3", 0.192), ("Standard_D8s_v3", 0.384), ("Standard_B2s", 0.042),
   ("Standard_D2s_v3", 0.096)]

/-- `PricingScraper.scrape_azure_pricing` (default instance-type list). -/
def scrape_azure_pricing : List (String × ℚ) :=
  ["Standard_D4s_v3", "Standard_D8s_v3", "Standard_B2s"].map (fun instance_type =>
    (instance_type, (qget azure_prices instance_type).getD 0.12))

/-- `PricingScraper.scrape_all_providers`: the three per-provider scrapes
(none of which can fail in this in-memory model). -/
def scrape_all_providers (h : PriceHistory) : CurrentPrices :=
  [("aws", scrape_aws_pricing h), ("gcp", scrape_gcp_pricing), ("azure", scrape_azure_pricing)]

/-- One detected price change (the `detected_at` wall-clock stamp is the
`now` parameter threaded through the model). -/
structure PriceChange where
  provider : String
  instance_type : String
  old_price_per_hour : ℚ
  new_price_per_hour : ℚ
  old_price_per_month : ℚ
  new_price_per_month : ℚ
  reduction_pct : ℚ
  savings_per_hour : ℚ
  savings_per_month : ℚ
  detected_at : String
  change_type : String
deriving Repr, DecidableEq

/-- The change list computed by `detect_price_changes` from the history it
was entered with: only reductions of more than 5% are emitted (an increase
is merely logged), and only for types whose historical price is truthy. -/
def detected_changes (h : PriceHistory) (current_prices : CurrentPrices) (now : String) :
    List PriceChange :=
  current_prices.flatMap (fun pp =>
    let historical := historyPrices h pp.1
    pp.2.filterMap (fun ip =>
      match qget historical ip.1 with
      | some historical_price =>
        if historical_price ≠ 0 then
          let change_pct := (historical_price - ip.2) / historical_price * 100
          if change_pct > 5 then
            some
              { provider := pp.1
                instance_type := ip.1
                old_price_per_hour := historical_price
                new_price_per_hour := ip.2
                old_price_per_month := historical_price * 730
                new_price_per_month := ip.2 * 730
                reduction_pct := change_pct
                savings_per_hour := historical_price - ip.2
                savings_per_month := (historical_price - ip.2) * 730
                detected_at := now
                change_type := "price_reduction" }
          else none
        else none
      | none => none))

/-- The unconditional baseline write at the end of `detect_price_changes`:
every provider map of the current scrape becomes the stored history. -/
def write_baseline (h : PriceHistory) (current_prices : CurrentPrices) (now : String) :
    PriceHistory :=
  current_prices.foldl
    (fun acc pp =>
      { acc with
        provider_prices := upsert acc.provider_prices (pp.1 ++ "_prices") pp.2
        last_updated := upsert acc.last_updated (pp.1 ++ "_prices_last_updated") now })
    h

/-- `PricingScraper.detect_price_changes`: compute the changes against the
stored baseline, then unconditionally persist the current scrape as the new
baseline. -/
def detect_price_changes (h : PriceHistory) (current_prices : CurrentPrices) (now : String) :
    List PriceChange × PriceHistory :=
  (detected_changes h current_prices now, write_baseline h current_prices now)

/-- The fallback defaults of `simulate_price_reduction` for a type that is
not yet in the history. -/
def simulateDefaultPrice (provider instance_type : String) : ℚ :=
  if provider == "aws" then
    (qget [("m5.xlarge", 0.192), ("t3.large", 0.0832), ("m5.2xlarge", 0.384)]
      instance_type).getD 0.20
  else if provider == "gcp" then 0.19
  else if provider == "azure" then 0.192
  else 0.20

/-- `PricingScraper.simulate_price_reduction`: stores the current price as
the historical baseline and stashes the reduced price under the
`simulated_reductions` override key. -/
def simulate_price_reduction (h : PriceHistory) (provider instance_type : String)
    (reduction_pct : ℚ) : PriceHistory × SimReduction :=
  let current_price :=
    match qget (historyPrices h provider) instance_type with
    | some p => p
    | none => simulateDefaultPrice provider instance_type
  let new_price := current_price * (1 - reduction_pct / 100)
  let sim :=
    { old_price := current_price, new_price := new_price, reduction_pct := reduction_pct }
  ({ h with
      provider_prices :=
        upsert h.provider_prices (provider ++ "_prices")
          (upsert (historyPrices h provider) instance_type current_price)
      simulated_reductions :=
        upsert h.simulated_reductions (provider ++ ":" ++ instance_type) sim },
    sim)

/-- `PriceChangeDetector.check_for_changes`: reload the history (explicit
state here), scrape all providers, detect changes. -/
def check_for_changes (h : PriceHistory) (now : String) : List PriceChange × PriceHistory :=
  detect_price_changes h (scrape_all_providers h) now

/-! Concrete inputs used by the counterexamples and witnesses below. -/

/-- A storage record of cost 50 with no tags and no usage metrics (it
triggers both the idle-resource and the unattached-storage heuristics). -/
def storageRec (rid : String) : UnifiedCostRecord :=
  { resource_id := rid
    cloud_provider := "aws"
    service_category := "storage"
    resource_type := "storage"
    cost_usd := 50
    usage_metrics := []
    region := "us-east-1"
    tags := []
    date := ""
    optimization_potential := 0 }

/-- Eleven such records: they produce 22 opportunities, more than the
top-20 truncation keeps. -/
def demoStorageRecords : List UnifiedCostRecord :=
  (List.range 11).map (fun i => storageRec ("vol-" ++ toString i))

/-- A record whose cost is zero (total cost 0 without an empty batch). -/
def zeroCostRecord : UnifiedCostRecord :=
  { resource_id := "idle-0"
    cloud_provider := "aws"
    service_category := "other"
    resource_type := "other"
    cost_usd := 0
    usage_metrics := []
    region := ""
    tags := []
    date := ""
    optimization_potential := 0 }

/-- The unified record `normalize_csv` produces for the single-field row
`⟨"cost_usd": 3⟩` under provider `custom`. -/
def csvPosRec : UnifiedCostRecord :=
  { resource_id := ""
    cloud_provider := "custom"
    service_category := ""
    resource_type := ""
    cost_usd := 3
    usage_metrics := []
    region := ""
    tags := []
    date := ""
    optimization_potential := 0 }

/-- Query parameters with every key absent. -/
def qpNone : QueryParams :=
  { filter := none, date_from := none, date_to := none, date_column := none,
    sort := none, limit := none }

/-- A query whose result-size limit exceeds the 10,000 ceiling. -/
def qpLimitBig : QueryParams := { qpNone with limit := some 20000 }

/-- A query whose filter contains the `$where` operator-injection pattern. -/
def qpWhere : QueryParams :=
  { qpNone with filter := some [("$where", PyVal.pstr "this.a == 1")] }

/-- A tiny loaded CSV frame. -/
def dfDemo : DataFrame := { columns := ["a"], rows := [[("a", PyVal.pnum 1)]] }

/-- A tiny MongoDB collection. -/
def collDemo : List RawRecord := [[("a", PyVal.pnum 2)]]

/-- A registry holding a CSV source and a MongoDB source. -/
def regDemo : DataSourceRegistry :=
  register (register emptyRegistry "csv" (mkCSVSource dfDemo)) "mongo" (mkMongoSource collDemo)

/-- A registry holding only the source name `aws`. -/
def regAwsOnly : DataSourceRegistry :=
  register emptyRegistry "aws" (mkCSVSource dfDemo)

/-- A one-provider current-prices map. -/
def curDemo : CurrentPrices := [("aws", [("m5.xlarge", 0.192)])]

/-! Helper lemmas about association-list lookups, the dict-assignment
`upsert`, and the stable sort. -/

theorem afind_eq_none {α : Type} {l : List (String × α)} {k : String}
    (h : k ∉ l.map Prod.fst) : l.find? (fun p => p.1 == k) = none := by
  rw [List.find?_eq_none]
  intro x hx hbeq
  exact h (List.mem_map.mpr ⟨x, hx, by simpa using hbeq⟩)

theorem afind_of_mem_nodup {α : Type} {l : List (String × α)} {k : String} {v : α}
    (hnd : (l.map Prod.fst).Nodup) (hm : (k, v) ∈ l) :
    l.find? (fun p => p.1 == k) = some (k, v) := by
  induction l with
  | nil => cases hm
  | cons p rest ih =>
    rcases List.mem_cons.mp hm with h | h
    · subst h
      simp [List.find?_cons]
    · have hk : k ∈ rest.map Prod.fst := List.mem_map.mpr ⟨(k, v), h, rfl⟩
      have hne : p.1 ≠ k := by
        intro hpk
        exact (List.nodup_cons.mp (by simpa using hnd)).1 (hpk ▸ hk)
      rw [List.find?_cons_of_neg _ (by simpa using hne)]
      exact ih (List.nodup_cons.mp (by simpa using hnd)).2 h

theorem afind_upsert_self {α : Type} (l : List (String × α)) (k : String) (v : α) :
    (upsert l k v).find? (fun p => p.1 == k) = some (k, v) := by
  induction l with
  | nil => simp [upsert]
  | cons p rest ih =>
    by_cases h : p.1 = k
    · simp [upsert, h]
    · rw [show upsert (p :: rest) k v = p :: upsert rest k v by simp [upsert, h]]
      rw [List.find?_cons_of_neg _ (by simpa using h)]
      exact ih

theorem afind_upsert_ne {α : Type} (l : List (String × α)) (k k2 : String) (v : α)
    (h : k ≠ k2) :
    (upsert l k2 v).find? (fun p => p.1 == k) = l.find? (fun p => p.1 == k) := by
  induction l with
  | nil =>
    simp only [upsert, List.find?]
    rw [show (k2 == k) = false from beq_eq_false_iff_ne.mpr (Ne.symm h)]
  | cons p rest ih =>
    by_cases hp : p.1 = k2
    · rw [show upsert (p :: rest) k2 v = (k2, v) :: rest by simp [upsert, hp]]
      rw [List.find?_cons_of_neg _ (by simpa using (Ne.symm h))]
      rw [List.find?_cons_of_neg _ (by simpa [hp] using (Ne.symm h))]
    · rw [show upsert (p :: rest) k2 v = p :: upsert rest k2 v by simp [upsert, hp]]
      by_cases hk : p.1 = k
      · rw [List.find?_cons_of_pos _ (by simpa using hk),
          List.find?_cons_of_pos _ (by simpa using hk)]
      · rw [List.find?_cons_of_neg _ (by simpa using hk),
          List.find?_cons_of_neg _ (by simpa using hk)]
        exact ih

theorem append_suffix_inj {p q s : String} (h : p ++ s = q ++ s) : p = q := by
  apply String.ext
  have h2 := congrArg String.data h
  simp only [String.data_append] at h2
  exact List.append_cancel_right h2

theorem insertDesc_perm (o : Opportunity) (l : List Opportunity) :
    List.Perm (insertDesc o l) (o :: l) := by
  induction l with
  | nil => rfl
  | cons y ys ih =>
    unfold insertDesc
    split_ifs
    · rfl
    · exact (List.Perm.cons y ih).trans (List.Perm.swap o y ys)

theorem sortBySavings_perm (l : List Opportunity) : List.Perm (sortBySavings l) l := by
  induction l with
  | nil => rfl
  | cons x xs ih =>
    exact (insertDesc_perm x (sortBySavings xs)).trans (List.Perm.cons x ih)

theorem sumSavings_sortBySavings (l : List Opportunity) :
    sumSavings (sortBySavings l) = sumSavings l := by
  unfold sumSavings
  exact List.Perm.sum_eq (List.Perm.map _ (sortBySavings_perm l))

/-! Helper lemmas characterizing the cost field of the normalizers. -/

theorem normalize_aws_cost_error {row : RawRecord} {e : String}
    (h : pyFloatE (rgetD row "lineItem/UnblendedCost" (.pnum 0)) = .error e) :
    normalize_aws row = .error e := by
  unfold normalize_aws
  rw [h]

theorem normalize_aws_cost_ok {row : RawRecord} {q : ℚ} {rec : UnifiedCostRecord}
    (hq : pyFloatE (rgetD row "lineItem/UnblendedCost" (.pnum 0)) = .ok q)
    (hrec : normalize_aws row = .ok rec) : rec.cost_usd = q := by
  unfold normalize_aws at hrec
  rw [hq] at hrec
  simp only [] at hrec
  split at hrec
  · exact absurd hrec (by simp)
  · split at hrec
    · exact absurd hrec (by simp)
    · cases hrec
      rfl

theorem normalize_gcp_cost_error {row : RawRecord} {e : String}
    (h : pyFloatE (rgetD row "cost" (.pnum 0)) = .error e) :
    normalize_gcp row = .error e := by
  unfold normalize_gcp
  rw [h]

theorem normalize_gcp_cost_ok {row : RawRecord} {q : ℚ} {rec : UnifiedCostRecord}
    (hq : pyFloatE (rgetD row "cost" (.pnum 0)) = .ok q)
    (hrec : normalize_gcp row = .ok rec) : rec.cost_usd = q := by
  unfold normalize_gcp at hrec
  rw [hq] at hrec
  simp only [] at hrec
  split at hrec
  · exact absurd hrec (by simp)
  · cases hrec
    rfl

theorem normalize_azure_cost_error {row : RawRecord} {e : String}
    (h : pyFloatE (rgetD row "Cost" (.pnum 0)) = .error e) :
    normalize_azure row = .error e := by
  unfold normalize_azure
  rw [h]

theorem normalize_azure_cost_ok {row : RawRecord} {q : ℚ} {rec : UnifiedCostRecord}
    (hq : pyFloatE (rgetD row "Cost" (.pnum 0)) = .ok q)
    (hrec : normalize_azure row = .ok rec) : rec.cost_usd = q := by
  unfold normalize_azure at hrec
  rw [hq] at hrec
  simp only [] at hrec
  split at hrec
  · exact absurd hrec (by simp)
  · cases hrec
    rfl

theorem normalize_csv_cost_error {row : RawRecord} {prov e : String}
    (h : pyFloatE (rgetD row "cost_usd" (.pnum 0)) = .error e) :
    normalize_csv row prov = .error e := by
  unfold normalize_csv
  rw [h]

theorem normalize_csv_cost_ok {row : RawRecord} {prov : String} {q : ℚ}
    {rec : UnifiedCostRecord}
    (hq : pyFloatE (rgetD row "cost_usd" (.pnum 0)) = .ok q)
    (hrec : normalize_csv row prov = .ok rec) : rec.cost_usd = q := by
  unfold normalize_csv at hrec
  rw [hq] at hrec
  simp only [] at hrec
  split at hrec
  · exact absurd hrec (by simp)
  · split at hrec
    · exact absurd hrec (by simp)
    · cases hrec
      rfl

theorem rgetD_of_rawCost_some {provider : String} {row : RawRecord} {v : PyVal}
    (h : rawCost provider row = some v) : rgetD row (costKey provider) (.pnum 0) = v := by
  unfold rgetD
  unfold rawCost at h
  rw [h]
  rfl

theorem rgetD_of_rawCost_none {provider : String} {row : RawRecord}
    (h : rawCost provider row = none) : rgetD row (costKey provider) (.pnum 0) = .pnum 0 := by
  unfold rgetD
  unfold rawCost at h
  rw [h]
  rfl

theorem normalizeOne_cost_error {provider : String} {row : RawRecord} {v : PyVal} {e : String}
    (hv : rawCost provider row = some v) (he : pyFloatE v = .error e) :
    normalizeOne provider row = .error e := by
  have hg := rgetD_of_rawCost_some hv
  unfold normalizeOne
  unfold rawCost costKey at hv
  split_ifs with h1 h2 h3
  · exact normalize_aws_cost_error (by simp [costKey, h1] at hg; rw [hg]; exact he)
  · exact normalize_gcp_cost_error
      (by simp [costKey, h1, h2] at hg; rw [hg]; exact he)
  · exact normalize_azure_cost_error
      (by simp [costKey, h1, h2, h3] at hg; rw [hg]; exact he)
  · exact normalize_csv_cost_error
      (by simp [costKey, h1, h2, h3] at hg; rw [hg]; exact he)

theorem normalizeOne_cost_ok {provider : String} {row : RawRecord} {v : PyVal} {q : ℚ}
    {rec : UnifiedCostRecord}
    (hv : rawCost provider row = some v) (hok : pyFloatE v = .ok q)
    (hrec : normalizeOne provider row = .ok rec) : rec.cost_usd = q := by
  have hg := rgetD_of_rawCost_some hv
  unfold normalizeOne at hrec
  split_ifs at hrec with h1 h2 h3
  · exact normalize_aws_cost_ok (by simp [costKey, h1] at hg; rw [hg]; exact hok) hrec
  · exact normalize_gcp_cost_ok
      (by simp [costKey, h1, h2] at hg; rw [hg]; exact hok) hrec
  · exact normalize_azure_cost_ok
      (by simp [costKey, h1, h2, h3] at hg; rw [hg]; exact hok) hrec
  · exact normalize_csv_cost_ok
      (by simp [costKey, h1, h2, h3] at hg; rw [hg]; exact hok) hrec

theorem normalizeOne_cost_absent {provider : String} {row : RawRecord}
    {rec : UnifiedCostRecord}
    (hv : rawCost provider row = none) (hrec : normalizeOne provider row = .ok rec) :
    rec.cost_usd = 0 := by
  have hg := rgetD_of_rawCost_none hv
  unfold normalizeOne at hrec
  split_ifs at hrec with h1 h2 h3
  · exact normalize_aws_cost_ok (by simp [costKey, h1] at hg; rw [hg]; rfl) hrec
  · exact normalize_gcp_cost_ok
      (by simp [costKey, h1, h2] at hg; rw [hg]; rfl) hrec
  · exact normalize_azure_cost_ok
      (by simp [costKey, h1, h2, h3] at hg; rw [hg]; rfl) hrec
  · exact normalize_csv_cost_ok
      (by simp [costKey, h1, h2, h3] at hg; rw [hg]; rfl) hrec

/-! Helper lemmas about the price-history baseline write. -/

theorem historyPrices_write_baseline_not_mem :
    ∀ (cur : CurrentPrices) (h : PriceHistory) (now p : String),
      p ∉ cur.map Prod.fst →
      historyPrices (write_baseline h cur now) p = historyPrices h p := by
  intro cur
  induction cur with
  | nil =>
    intro h now p _
    rfl
  | cons q rest ih =>
    intro h now p hp
    have h1 : p ∉ rest.map Prod.fst := by
      intro hx
      exact hp (by simp [hx])
    have h2 : p ≠ q.1 := by
      intro he
      exact hp (by simp [he])
    rw [show write_baseline h (q :: rest) now =
        write_baseline
          { h with
            provider_prices := upsert h.provider_prices (q.1 ++ "_prices") q.2
            last_updated := upsert h.last_updated (q.1 ++ "_prices_last_updated") now }
          rest now from rfl]
    rw [ih _ now p h1]
    unfold historyPrices
    rw [afind_upsert_ne _ _ _ _ (fun hc => h2 (append_suffix_inj hc))]

theorem historyPrices_write_baseline_mem :
    ∀ (cur : CurrentPrices) (h : PriceHistory) (now p : String) (m : List (String × ℚ)),
      (cur.map Prod.fst).Nodup → (p, m) ∈ cur →
      historyPrices (write_baseline h cur now) p = m := by
  intro cur
  induction cur with
  | nil =>
    intro h now p m _ hmem
    cases hmem
  | cons q rest ih =>
    intro h now p m hnd hmem
    rw [List.map_cons, List.nodup_cons] at hnd
    rw [show write_baseline h (q :: rest) now =
        write_baseline
          { h with
            provider_prices := upsert h.provider_prices (q.1 ++ "_prices") q.2
            last_updated := upsert h.last_updated (q.1 ++ "_prices_last_updated") now }
          rest now from rfl]
    rcases List.mem_cons.mp hmem with he | hm
    · have hq : q = (p, m) := he.symm
      subst hq
      rw [historyPrices_write_baseline_not_mem rest _ now p hnd.1]
      unfold historyPrices
      rw [afind_upsert_self]
      rfl
    · exact ih _ now p m hnd.2 hm

theorem detected_changes_of_baseline (h1 : PriceHistory) (cur : CurrentPrices)
    (now : String)
    (hbase : ∀ pm ∈ cur, historyPrices h1 pm.1 = pm.2)
    (hin : ∀ pm ∈ cur, (pm.2.map Prod.fst).Nodup) :
    detected_changes h1 cur now = [] := by
  unfold detected_changes
  rw [List.flatMap_eq_nil_iff]
  intro pp hpp
  simp only []
  rw [List.filterMap_eq_nil_iff]
  intro ip hip
  rw [hbase pp hpp]
  rw [show qget pp.2 ip.1 = some ip.2 from by
    unfold qget
    rw [afind_of_mem_nodup (hin pp hpp) hip]
    rfl]
  simp only []
  split_ifs with h0 h5
  · exact absurd h5 (by norm_num [sub_self])
  · rfl
  · rfl

/-! Settlement of the claims. -/

/-- C1 (counterexample): for eleven untagged storage records of cost 50 the
analyzer collects 22 opportunities, so `total_potential_savings` (the sum
over ALL collected opportunities) differs from the sum over the returned,
top-20-truncated `opportunities` list — the claimed identity fails. -/
theorem C1_counterexample_top20_sum :
    (analyze_costs demoStorageRecords).total_potential_savings ≠
      some (sumSavings ((analyze_costs demoStorageRecords).opportunities)) := by
  decide

/-- C1 (amended): for every non-empty batch, `total_potential_savings`
equals the sum of `potential_savings` over all opportunities collected by
the six heuristics (before truncation), and the returned `opportunities`
list is the stable descending sort truncated to the top 20. -/
theorem C1_total_savings_sums_all_opportunities (records : List UnifiedCostRecord)
    (h : records ≠ []) :
    (analyze_costs records).total_potential_savings =
      some (sumSavings (all_opportunities records)) ∧
    (analyze_costs records).opportunities =
      (sortBySavings (all_opportunities records)).take 20 := by
  have hne : records.isEmpty = false := by simpa [List.isEmpty_iff] using h
  refine ⟨?_, ?_⟩ <;> simp [analyze_costs, hne, sumSavings_sortBySavings]

/-- C1 (witness): the amended statement evaluated on a one-record batch. -/
theorem C1_witness :
    (analyze_costs [storageRec "vol-w"]).total_potential_savings =
      some (sumSavings (all_opportunities [storageRec "vol-w"])) ∧
    (analyze_costs [storageRec "vol-w"]).opportunities =
      (sortBySavings (all_opportunities [storageRec "vol-w"])).take 20 :=
  C1_total_savings_sums_all_opportunities [storageRec "vol-w"] (by simp)

/-- C2 (counterexample): for the empty batch the early return of
`analyze_costs` contains no `savings_percentage` key at all (modelled as
`none`), so the claimed `savings_percentage == 0` fails on the empty list. -/
theorem C2_counterexample_empty_batch :
    (analyze_costs ([] : List UnifiedCostRecord)).savings_percentage = none ∧
      (analyze_costs ([] : List UnifiedCostRecord)).savings_percentage ≠ some 0 :=
  ⟨rfl, by decide⟩

/-- C2 (amended): for every NON-EMPTY batch whose total cost is 0 the
returned `savings_percentage` is 0 (the guard `total_cost > 0` prevents any
division by zero); the empty batch returns a dict without the key. -/
theorem C2_zero_total_cost_zero_percentage (records : List UnifiedCostRecord)
    (hne : records ≠ []) (hzero : sumCost records = 0) :
    (analyze_costs records).savings_percentage = some 0 := by
  have he : records.isEmpty = false := by simpa [List.isEmpty_iff] using hne
  simp [analyze_costs, he, hzero]

/-- C2 (witness): the amended statement evaluated on a batch with one
zero-cost record. -/
theorem C2_witness : (analyze_costs [zeroCostRecord]).savings_percentage = some 0 :=
  C2_zero_total_cost_zero_percentage [zeroCostRecord] (by simp) (by decide)

/-- C3: `normalize_aws` computes `region.split('-')[0]`, so the
availability zone `us-east-1a` yields region `us`, not the claimed
`us-east-1` (availability zone minus its last hyphen segment): the code
keeps only the part before the FIRST hyphen. -/
theorem C3_region_first_segment_eval :
    (normalize_aws [("lineItem/AvailabilityZone", PyVal.pstr "us-east-1a")]).toOption.map
        (fun r => r.region) = some "us" ∧
      ("us" : String) ≠ "us-east-1" := by
  decide

/-- C4 (counterexample): a raw AWS row whose cost cell is the unparseable
string `abc` makes `normalize_aws` raise `ValueError` instead of yielding
`cost_usd = 0`, refuting the claimed never-throwing parse-failure default. -/
theorem C4_counterexample_unparseable_cost :
    normalizeOne "aws" [("lineItem/UnblendedCost", PyVal.pstr "abc")] =
      .error "ValueError: could not convert string to float" := rfl

/-- C4 (amended): every per-provider normalize operation parses the
provider cost field as a float; an absent field yields `cost_usd = 0`, a
successfully parsed value is stored exactly, but a value that fails to
parse raises the parse exception (which `normalize_batch` catches, skipping
the row) rather than defaulting to 0. -/
theorem C4_cost_parsing (provider : String) (row : RawRecord) :
    (rawCost provider row = none →
      ∀ rec, normalizeOne provider row = .ok rec → rec.cost_usd = 0) ∧
    (∀ v e, rawCost provider row = some v → pyFloatE v = .error e →
      normalizeOne provider row = .error e) ∧
    (∀ v q, rawCost provider row = some v → pyFloatE v = .ok q →
      ∀ rec, normalizeOne provider row = .ok rec → rec.cost_usd = q) :=
  ⟨fun hv _rec hrec => normalizeOne_cost_absent hv hrec,
   fun _v _e hv he => normalizeOne_cost_error hv he,
   fun _v _q hv hq _rec hrec => normalizeOne_cost_ok hv hq hrec⟩

/-- C4 (witness): the amended statement evaluated on an Azure row with an
unparseable cost cell. -/
theorem C4_witness :
    normalizeOne "azure" [("Cost", PyVal.pstr "oops")] =
      .error "ValueError: could not convert string to float" :=
  (C4_cost_parsing "azure" [("Cost", PyVal.pstr "oops")]).2.1 (PyVal.pstr "oops")
    "ValueError: could not convert string to float" rfl rfl

/-- C5 (counterexample): a raw row whose cost cell is the number -5
normalizes successfully to a record with `cost_usd = -5 < 0`: no normalizer
enforces the claimed `cost_usd ≥ 0` invariant. -/
theorem C5_counterexample_negative_cost :
    (normalizeOne "custom" [("cost_usd", PyVal.pnum (-5))]).toOption.map
        (fun r => r.cost_usd) = some (-5) ∧ ¬ ((0 : ℚ) ≤ -5) := by
  decide

/-- C5 (amended): a produced `UnifiedCostRecord` satisfies `cost_usd ≥ 0`
whenever the raw cost cell is absent or parses to a nonnegative number;
the value is otherwise passed through unclamped. -/
theorem C5_cost_nonneg (provider : String) (row : RawRecord) (rec : UnifiedCostRecord)
    (hok : normalizeOne provider row = .ok rec)
    (hnn : ∀ v q, rawCost provider row = some v → pyFloatE v = .ok q → 0 ≤ q) :
    0 ≤ rec.cost_usd := by
  cases hr : rawCost provider row with
  | none =>
    rw [normalizeOne_cost_absent hr hok]
  | some v =>
    cases hf : pyFloatE v with
    | error e =>
      rw [normalizeOne_cost_error hr hf] at hok
      exact absurd hok (by simp)
    | ok q =>
      rw [normalizeOne_cost_ok hr hf hok]
      exact hnn v q hr hf

/-- C5 (witness): the amended statement evaluated on a row with cost 3. -/
theorem C5_witness : 0 ≤ csvPosRec.cost_usd :=
  C5_cost_nonneg "custom" [("cost_usd", PyVal.pnum 3)] csvPosRec rfl
    (by
      intro v q hv hq
      rw [show rawCost "custom" [("cost_usd", PyVal.pnum 3)] = some (PyVal.pnum 3)
        from rfl] at hv
      cases hv
      rw [show pyFloatE (PyVal.pnum 3) = .ok (3 : ℚ) from rfl] at hq
      cases hq
      norm_num)

/-- C6: querying a source name that is not registered raises the NotFound
`ValueError` (with the name quoted in the message); it never returns an
empty list. -/
theorem C6_query_unregistered_raises (reg : DataSourceRegistry) (name : String)
    (qp : QueryParams) (h : name ∉ reg.sources.map Prod.fst) :
    query_source reg name qp =
      .error ("Data source " ++ pyQuoted name ++ " not found") := by
  simp [query_source, get_source, afind_eq_none h]

/-- C6 (witness): with only `aws` registered, querying `gcp` yields the
NotFound error. -/
theorem C6_witness :
    query_source regAwsOnly "gcp" qpNone =
      .error ("Data source " ++ pyQuoted "gcp" ++ " not found") :=
  C6_query_unregistered_raises regAwsOnly "gcp" qpNone (by decide)

/-- C7: `query_all_sources` returns exactly one entry per registered
source, in registration order; each entry is that source's own query
result, with a raised error caught and replaced by the empty list, so one
failing source neither aborts the call nor affects any other entry. -/
theorem C7_query_all_isolates (reg : DataSourceRegistry) (qp : QueryParams)
    (hnd : (reg.sources.map Prod.fst).Nodup) :
    query_all_sources reg qp =
      reg.sources.map (fun p =>
        (p.1, match p.2.query qp with | .ok rows => rows | .error _ => [])) := by
  unfold query_all_sources
  apply List.map_congr_left
  intro p hp
  have hfind : get_source reg p.1 = some p.2 := by
    unfold get_source
    rw [afind_of_mem_nodup hnd hp]
    rfl
  simp [query_source, hfind]

/-- C7 (witness): a registry with a CSV source and a MongoDB source,
queried with a filter the MongoDB validator rejects: the MongoDB entry is
empty, the CSV entry is its own result. -/
theorem C7_witness :
    query_all_sources regDemo qpWhere =
      regDemo.sources.map (fun p =>
        (p.1, match p.2.query qpWhere with | .ok rows => rows | .error _ => [])) :=
  C7_query_all_isolates regDemo qpWhere (by decide)

/-- C8: every data-source variant rejects a limit above 10,000; the
MongoDB validator additionally rejects any filter whose textual form
contains `$where`, `$eval` or `$function`; and every variant's `query`
raises the validation error, independently of the backing data, whenever
its validator returns false. -/
theorem C8_validation_boundary :
    (∀ qp l, qp.limit = some l → l > 10000 →
      csv_validate qp = false ∧ aws_validate qp = false ∧ gcp_validate qp = false ∧
        azure_validate qp = false ∧ mongo_validate qp = false ∧
        ∀ ep, rest_validate ep qp = false) ∧
    (∀ qp f, qp.filter = some f → dangerous_ops_in (pyDictStr f) = true →
      mongo_validate qp = false) ∧
    (∀ df qp, csv_validate qp = false →
      csv_query df qp = .error "Query validation failed") ∧
    (∀ df qp, aws_validate qp = false →
      aws_query df qp = .error "Query validation failed") ∧
    (∀ df qp, gcp_validate qp = false →
      gcp_query df qp = .error "Query validation failed") ∧
    (∀ df qp, azure_validate qp = false →
      azure_query df qp = .error "Query validation failed") ∧
    (∀ coll qp, mongo_validate qp = false →
      mongo_query coll qp = .error "Query validation failed: Unsafe operation detected") ∧
    (∀ resp ep qp, rest_validate ep qp = false →
      rest_query resp ep qp = .error "Query validation failed") := by
  refine ⟨?_, ?_, ?_, ?_, ?_, ?_, ?_, ?_⟩
  · intro qp l hl hgt
    have hex : limit_exceeds qp = true := by simp [limit_exceeds, hl, hgt]
    refine ⟨?_, ?_, ?_, ?_, ?_, fun ep => ?_⟩ <;>
      simp [csv_validate, aws_validate, gcp_validate, azure_validate, mongo_validate,
        rest_validate, hex]
  · intro qp f hf hdang
    simp [mongo_validate, hf, hdang]
  · intro df qp hv
    simp [csv_query, hv]
  · intro df qp hv
    simp [aws_query, hv]
  · intro df qp hv
    simp [gcp_query, hv]
  · intro df qp hv
    simp [azure_query, hv]
  · intro coll qp hv
    simp [mongo_query, hv]
  · intro resp ep qp hv
    simp [rest_query, hv]

/-- C8 (witness): a limit of 20,000 is rejected (and the CSV query raises),
and a `$where` filter is rejected by the MongoDB validator (and its query
raises), at concrete inputs. -/
theorem C8_witness :
    mongo_validate qpWhere = false ∧ csv_validate qpLimitBig = false ∧
    csv_query dfDemo qpLimitBig = .error "Query validation failed" ∧
    mongo_query collDemo qpWhere =
      .error "Query validation failed: Unsafe operation detected" := by
  obtain ⟨h1, h2, h3, _h4, _h5, _h6, h7, _h8⟩ := C8_validation_boundary
  refine ⟨h2 qpWhere _ rfl (by decide), (h1 qpLimitBig 20000 rfl (by norm_num)).1,
    h3 dfDemo qpLimitBig (h1 qpLimitBig 20000 rfl (by norm_num)).1,
    h7 collDemo qpWhere (h2 qpWhere _ rfl (by decide))⟩

/-- C9: `detect_price_changes` unconditionally writes the current scrape
into the history as the new baseline (for every provider of the scrape),
and a second run on the same current prices therefore detects nothing. -/
theorem C9_baseline_idempotent (h : PriceHistory) (cur : CurrentPrices)
    (now1 now2 : String) (p : String) (m : List (String × ℚ))
    (hnd : (cur.map Prod.fst).Nodup)
    (hin : ∀ pm ∈ cur, ((pm.2.map Prod.fst).Nodup))
    (hmem : (p, m) ∈ cur) :
    historyPrices (detect_price_changes h cur now1).2 p = m ∧
    (detect_price_changes (detect_price_changes h cur now1).2 cur now2).1 = [] := by
  refine ⟨historyPrices_write_baseline_mem cur h now1 p m hnd hmem, ?_⟩
  apply detected_changes_of_baseline
  · intro pm hpm
    exact historyPrices_write_baseline_mem cur h now1 pm.1 pm.2 hnd hpm
  · exact hin

/-- C9 (witness): the statement evaluated on the empty history and a
one-provider scrape. -/
theorem C9_witness :
    historyPrices (detect_price_changes emptyHistory curDemo "t1").2 "aws" =
      [("m5.xlarge", 0.192)] ∧
    (detect_price_changes (detect_price_changes emptyHistory curDemo "t1").2 curDemo
        "t2").1 = [] :=
  C9_baseline_idempotent emptyHistory curDemo "t1" "t2" "aws" [("m5.xlarge", 0.192)]
    (by decide) (by decide) (by decide)

/-- C10: starting from an empty history, simulating a 15% reduction for
aws/m5.xlarge and running the next change-detection pass (reload, scrape
all providers, detect) reports exactly one price change: aws m5.xlarge with
`reduction_pct = 15` and `savings_per_month = (0.192 * 0.15) * 730`
(exactly, in the rational model). -/
theorem C10_simulated_reduction_detected :
    ((check_for_changes (simulate_price_reduction emptyHistory "aws" "m5.xlarge" 15).1
        "T").1.map
      (fun c => (c.provider, c.instance_type, c.reduction_pct, c.savings_per_month))) =
      [("aws", "m5.xlarge", (15 : ℚ), 0.192 * (15 / 100) * 730)] := by
  decide

end CostPortfolio
